import Mathlib

/-!
Shallow embedding of the three C++11 teaching snippets in kbat/docs
(`src/analysis/cpp11/codeSnippets/`): `variadic.cxx`, `initLists.cxx`
and `nullptr.cxx`, together with theorems settling the spec claims.

Modelling conventions:
- C++ `int` is modelled as unbounded `Int`; no call executed by any of the
  three programs comes near the `int` range, so overflow never matters here.
- A program run is modelled by the list of lines it writes to standard
  output together with its exit code; `main` without a `return` statement
  returns 0.
- `__PRETTY_FUNCTION__` is a compiler-dependent string naming the current
  instantiation; a printed signature line is modelled by the arity of the
  `adder` instantiation it names.
-/

/-! ### variadic.cxx -/

/-- `T adder(T v) { return v; }` and
`T adder(T first, Args... args) { std::cout << __PRETTY_FUNCTION__ << "\n"; return first + adder(args...); }`
translated as one Lean function on the nonempty argument list `(first, args)`.
The result is the returned value paired with the printed signature lines
(each line recorded as the arity of the instantiation it names: the
recursive overload taking `first` and the pack `a :: rest` has arity
`rest.length + 2`). The base overload prints nothing. -/
def adder (first : Int) : List Int → Int × List Nat
  | [] => (first, [])
  | a :: rest =>
      let r := adder a rest
      (first + r.1, (rest.length + 2) :: r.2)

/-- `int main() { adder(1, 2, 3, 8, 7); }` of variadic.cxx: the returned sum
is discarded, so the observable behaviour is the printed signature lines and
the implicit exit code 0. -/
def variadicMain : List Nat × Nat :=
  ((adder 1 [2, 3, 8, 7]).2, 0)

/-- One recursive step of `adder` as a transition on the state
`(first, remaining pack)`: the recursive overload calls `adder(args...)`,
so the head of the pack becomes the new first argument and the pack loses
one element; at the empty pack the base overload makes no further call. -/
def adderStep : Int × List Int → Option (Int × List Int)
  | (_, []) => none
  | (_, a :: rest) => some (a, rest)

/-- Iterating `adderStep` with explicit fuel, stopping at the base case. -/
def adderIter : Nat → Int × List Int → Int × List Int
  | 0, s => s
  | n + 1, s =>
      match adderStep s with
      | none => s
      | some t => adderIter n t

/-! ### initLists.cxx -/

/-- `class Position` of initLists.cxx: three private `int` fields. -/
structure Position where
  fX : Int
  fY : Int
  fZ : Int
deriving DecidableEq

/-- `Position() { fX = 0; fY = 0; fZ = 0; }` -/
def Position.mkDefault : Position := ⟨0, 0, 0⟩

/-- `Position(int x, int y, int z) { fX = x; fY = y; fZ = z; }` -/
def Position.make (x y z : Int) : Position := ⟨x, y, z⟩

/-- `void printCoordinates() { cout << "(" << fX << ", " << fY << ", " << fZ << ")" << endl; }`:
a non-const member function modelled in state-passing style as
(post-state, printed line); its body assigns to no field, so the post-state
is the receiver itself. -/
def Position.printCoordinates (p : Position) : Position × String :=
  (p, "(" ++ toString p.fX ++ ", " ++ toString p.fY ++ ", " ++ toString p.fZ ++ ")")

/-- `for (auto i : places) i.printCoordinates();` — each iteration copies the
current element into `i` (iteration by value), calls the method on the copy
and discards the copy; the element in the container is never written. Returns
the container after the loop together with the printed lines. -/
def printAll : List Position → List Position × List String
  | [] => ([], [])
  | p :: rest =>
      let i := p
      let (_, line) := i.printCoordinates
      let (rest', lines) := printAll rest
      (p :: rest', line :: lines)

/-- `int main()` of initLists.cxx: prints the coordinates of
`centreOfTheUniverse = {-1, -100, -1}`, then of every element of
`places = {{1, 2, 3}, {}, {4, 5, 6}}`; implicit exit code 0. -/
def initListsMain : List String × Nat :=
  let centreOfTheUniverse := Position.make (-1) (-100) (-1)
  let (_, firstLine) := centreOfTheUniverse.printCoordinates
  let places : List Position :=
    [Position.make 1 2 3, Position.mkDefault, Position.make 4 5 6]
  let (_, lines) := printAll places
  (firstLine :: lines, 0)

/-! ### nullptr.cxx -/

/-- The two parameter types of the `printMe` overloads:
`void printMe(int i)` and `void printMe(int *i)`. -/
inductive ParamType where
  | intTy
  | intPtrTy
deriving DecidableEq

/-- The call-site argument expressions appearing in nullptr.cxx (including
the commented-out `printMe(NULL)` call): the literal `0` (of type `int`,
also a null pointer constant), the macro `NULL` (an untyped null constant of
integer type, e.g. `0L`), and the `nullptr` literal (of type
`std::nullptr_t`). -/
inductive ArgExpr where
  | literalZero
  | nullConstant
  | nullptrLit
deriving DecidableEq

/-- Rank of an implicit conversion sequence: an identity match is exact,
every other applicable standard conversion here has conversion rank. -/
inductive ConvRank where
  | exact
  | conversion
deriving DecidableEq

/-- Implicit-conversion ranking from each argument expression to each
parameter type: `0 → int` is an identity match; `0 → int*` and
`NULL → int*` are null-pointer conversions; `NULL → int` is an integral
conversion; `nullptr → int*` is a pointer conversion; `nullptr → int` does
not exist. -/
def convRank : ArgExpr → ParamType → Option ConvRank
  | .literalZero, .intTy => some .exact
  | .literalZero, .intPtrTy => some .conversion
  | .nullConstant, .intTy => some .conversion
  | .nullConstant, .intPtrTy => some .conversion
  | .nullptrLit, .intTy => none
  | .nullptrLit, .intPtrTy => some .conversion

/-- Strict betterness of conversion ranks: exact beats conversion. -/
def rankBetter : ConvRank → ConvRank → Bool
  | .exact, .conversion => true
  | _, _ => false

/-- Outcome of overload resolution on a call. -/
inductive Resolution where
  | selected (p : ParamType)
  | ambiguous
  | noViable
deriving DecidableEq

/-- Overload resolution for the two `printMe` overloads, restricted to one
argument: keep the viable candidates, select the one whose conversion is
strictly better, and report ambiguity on a tie. -/
def resolvePrintMe (a : ArgExpr) : Resolution :=
  match convRank a .intTy, convRank a .intPtrTy with
  | none, none => .noViable
  | some _, none => .selected .intTy
  | none, some _ => .selected .intPtrTy
  | some r1, some r2 =>
      if rankBetter r1 r2 then .selected .intTy
      else if rankBetter r2 r1 then .selected .intPtrTy
      else .ambiguous

/-- The line printed by the body of the selected `printMe` overload:
`printMe(int)` prints "I am an integer: " followed by the value;
`printMe(int*)` prints "I am a pointer to an integer: " followed by the
(here always null) pointer, whose textual form is implementation-defined
and kept abstract. -/
inductive OutLine where
  | intLine (i : Int)
  | ptrLine
deriving DecidableEq

/-- Rendering of the `printMe(int)` output line. -/
def renderIntLine (i : Int) : String := "I am an integer: " ++ toString i

/-- The `int` value of each argument expression when bound to the `int`
parameter (each of the three is a zero constant). -/
def ArgExpr.asInt : ArgExpr → Int
  | .literalZero => 0
  | .nullConstant => 0
  | .nullptrLit => 0

/-- Executing a call `printMe(e)`: resolve the overload and run the selected
body; a call that does not resolve does not compile, modelled as an error. -/
def callPrintMe (a : ArgExpr) : Except String OutLine :=
  match resolvePrintMe a with
  | .selected .intTy => .ok (.intLine a.asInt)
  | .selected .intPtrTy => .ok .ptrLine
  | .ambiguous => .error "call to printMe is ambiguous"
  | .noViable => .error "no matching function for call to printMe"

/-- `int main() { printMe(0); printMe(nullptr); }` of nullptr.cxx (the
`printMe(NULL)` call is commented out); implicit exit code 0. -/
def nullptrMain : Except String (List OutLine × Nat) := do
  let l1 ← callPrintMe .literalZero
  let l2 ← callPrintMe .nullptrLit
  pure ([l1, l2], 0)

/-! ### Process-level runs -/

/-- The external input a process run could receive: command-line arguments
and environment variables. None of the three `main`s reads either (`main()`
takes no parameters, and no `getenv` or stream input appears in any file),
so each run function ignores its input. -/
structure ProcessInput where
  argv : List String
  env : List (String × String)

/-- A run of the initLists program on arbitrary external input. -/
def runInitLists (_inp : ProcessInput) : List String × Nat := initListsMain

/-- A run of the variadic program on arbitrary external input. -/
def runVariadic (_inp : ProcessInput) : List Nat × Nat := variadicMain

/-- A run of the nullptr program on arbitrary external input. -/
def runNullptr (_inp : ProcessInput) : Except String (List OutLine × Nat) :=
  nullptrMain

/-! ### Theorems -/

/-- C1: for every non-empty list of integer arguments, `adder` returns the
sum of all its arguments (the base case returning the single argument, the
recursive case adding the first argument to the sum of the rest); in
particular `adder(1, 2, 3, 8, 7)` returns 21, and in `main` that return
value is discarded: the observable run consists only of the printed lines
and the exit code. -/
theorem adder_returns_sum :
    (∀ (first : Int) (args : List Int), (adder first args).1 = first + args.sum) ∧
    (adder 1 [2, 3, 8, 7]).1 = 21 ∧
    variadicMain = ((adder 1 [2, 3, 8, 7]).2, 0) := by
  refine ⟨?_, rfl, rfl⟩
  intro first args
  induction args generalizing first with
  | nil => simp [adder]
  | cons a rest ih => simp [adder, ih]

/-- C3: each recursive step of `adder` prints exactly one signature line, so
a call with `n ≥ 1` arguments prints exactly `n - 1` lines, the
single-argument base case prints nothing, and `adder(1, 2, 3, 8, 7)` prints
exactly 4 signature lines. -/
theorem adder_signature_line_count :
    (∀ (first : Int) (args : List Int), (adder first args).2.length = args.length) ∧
    (∀ v : Int, (adder v []).2 = []) ∧
    (adder 1 [2, 3, 8, 7]).2.length = 4 := by
  refine ⟨?_, fun v => rfl, rfl⟩
  intro first args
  induction args generalizing first with
  | nil => rfl
  | cons a rest ih => simp [adder, ih]

/-- C2: the initLists program prints exactly four lines, in order
"(-1, -100, -1)", "(1, 2, 3)", "(0, 0, 0)", "(4, 5, 6)", and nothing
else. -/
theorem initLists_prints_exactly_four_lines :
    initListsMain = (["(-1, -100, -1)", "(1, 2, 3)", "(0, 0, 0)", "(4, 5, 6)"], 0) := by
  rfl

/-- C4: the call `printMe(nullptr)` selects the pointer overload
`printMe(int*)` — so the second output line of the nullptr program is the
"I am a pointer to an integer" message and never the "I am an integer"
message — while the untyped null constant `NULL` would make the call
ambiguous. -/
theorem nullptr_selects_pointer_overload :
    resolvePrintMe ArgExpr.nullptrLit = Resolution.selected ParamType.intPtrTy ∧
    callPrintMe ArgExpr.nullptrLit = Except.ok OutLine.ptrLine ∧
    (nullptrMain.map fun r => r.1[1]?) = Except.ok (some OutLine.ptrLine) ∧
    (∀ i : Int, (OutLine.ptrLine == OutLine.intLine i) = false) ∧
    resolvePrintMe ArgExpr.nullConstant = Resolution.ambiguous := by
  refine ⟨rfl, rfl, rfl, fun i => rfl, rfl⟩

/-- C5: a `Position` constructed from `{x, y, z}` holds exactly those three
integers and `printCoordinates` prints "(x, y, z)" for them; a
default-constructed `Position` holds (0, 0, 0); and no other invariant
constrains the fields: every `Position` is exactly the triple of its three
fields, any integer triple being realisable. -/
theorem position_holds_exactly_three_ints :
    (∀ x y z : Int,
      (Position.make x y z).fX = x ∧ (Position.make x y z).fY = y ∧
      (Position.make x y z).fZ = z ∧
      ((Position.make x y z).printCoordinates).2 =
        "(" ++ toString x ++ ", " ++ toString y ++ ", " ++ toString z ++ ")") ∧
    Position.mkDefault = Position.make 0 0 0 ∧
    (∀ p : Position, p = Position.make p.fX p.fY p.fZ) :=
  ⟨fun _ _ _ => ⟨rfl, rfl, rfl, rfl⟩, rfl, fun _ => rfl⟩

/-- C6: every run of each of the three programs completes without an error
condition and with exit code 0; in particular both `printMe` calls that the
nullptr program makes resolve successfully, so its only fallible operations
take their success branch. -/
theorem all_programs_exit_success :
    initListsMain.2 = 0 ∧ variadicMain.2 = 0 ∧
    nullptrMain = Except.ok ([OutLine.intLine 0, OutLine.ptrLine], 0) ∧
    callPrintMe ArgExpr.literalZero = Except.ok (OutLine.intLine 0) ∧
    callPrintMe ArgExpr.nullptrLit = Except.ok OutLine.ptrLine :=
  ⟨rfl, rfl, rfl, rfl, rfl⟩

/-- C7: every call of `adder` terminates: each recursive step maps the state
`(first, a :: rest)` to `(a, rest)`, strictly decreasing the pack length;
the base case (empty pack) makes no further call; and from any start state
the base case is reached after exactly as many steps as the pack has
elements. -/
theorem adder_recursion_terminates :
    (∀ (first a : Int) (rest : List Int),
      adderStep (first, a :: rest) = some (a, rest) ∧
      rest.length < (a :: rest).length) ∧
    (∀ first : Int, adderStep (first, []) = none) ∧
    (∀ (first : Int) (args : List Int),
      (adderIter args.length (first, args)).2 = []) := by
  refine ⟨fun first a rest => ⟨rfl, by simp⟩, fun first => rfl, ?_⟩
  intro first args
  induction args generalizing first with
  | nil => rfl
  | cons a rest ih => simpa [adderIter, adderStep] using ih a

/-- C8: each program is deterministic: a run takes no input of any kind, so
any two runs — whatever the command-line arguments and environment — produce
identical standard-output text and identical exit codes. -/
theorem all_programs_deterministic :
    ∀ i1 i2 : ProcessInput,
      runInitLists i1 = runInitLists i2 ∧
      runVariadic i1 = runVariadic i2 ∧
      runNullptr i1 = runNullptr i2 :=
  fun _ _ => ⟨rfl, rfl, rfl⟩

/-- C9: the call `printMe(0)` selects the integer overload `printMe(int)`
(the identity match on `int` beats the null-pointer conversion to `int*`),
so the first output line of the nullptr program is "I am an integer: 0". -/
theorem zero_selects_int_overload :
    resolvePrintMe ArgExpr.literalZero = Resolution.selected ParamType.intTy ∧
    convRank ArgExpr.literalZero ParamType.intTy = some ConvRank.exact ∧
    (nullptrMain.map fun r => r.1[0]?) = Except.ok (some (OutLine.intLine 0)) ∧
    renderIntLine 0 = "I am an integer: 0" :=
  ⟨rfl, rfl, rfl, rfl⟩

/-- C10: `printCoordinates` leaves the receiver's three fields unchanged,
and the range-for loop iterates over copies of the elements, so the vector
and every `Position` in it are unchanged after all printing completes. -/
theorem printing_leaves_positions_unchanged :
    (∀ p : Position, (p.printCoordinates).1 = p) ∧
    (∀ places : List Position, (printAll places).1 = places) := by
  refine ⟨fun p => rfl, ?_⟩
  intro places
  induction places with
  | nil => rfl
  | cons p rest ih =>
      rcases hpr : printAll rest with ⟨r, l⟩
      rw [hpr] at ih
      simp [printAll, hpr, ih]
